import Mathlib

/-!
Verification of the pipe / dependency-injection parameter-binding pipeline of
the repository `reproduce-undefined-injects`.

The repository contains: `user.decorator.ts` (a `GetUserPipe` whose constructor
injects the `REQUEST` object and whose `transform` derives a user DTO from the
`x-user-id` header), `my.controller.ts` (`MyController.getData`, which passes the
bound user to `LoggerService.assign`), `logger.service.ts`, and two test files.
The dependency container, parameter binder and handler dispatcher themselves are
framework code that is not part of the repository's sources, so they are
modelled from the specification (section 2, 4, 6, 7 of the design document);
those definitions carry a doc comment starting with `Modelled from the spec:`.
-/

set_option autoImplicit false
set_option linter.unusedVariables false

/-! ## Generic JavaScript-style objects as association lists -/

/-- Lookup of a key in an object represented as an association list
(first matching entry; objects built by `objSet` have unique keys). -/
def objGet {α : Type} : List (String × α) → String → Option α
  | [], _ => none
  | (k0, v) :: rest, k => if k0 = k then some v else objGet rest k

/-- Assignment of a key in an object: replaces the first entry with that key in
place, or appends a new entry at the end.  This matches JavaScript property
assignment on objects with unique keys (existing keys keep their position). -/
def objSet {α : Type} : List (String × α) → String → α → List (String × α)
  | [], k, v => [(k, v)]
  | (k0, v0) :: rest, k, v =>
    if k0 = k then (k, v) :: rest else (k0, v0) :: objSet rest k v

/-- The JavaScript spread-merge `\x7b ...a, ...b \x7d`: start from `a` and assign
every entry of `b` in order (later entries win). -/
def objSpread {α : Type} (a b : List (String × α)) : List (String × α) :=
  b.foldl (fun acc p => objSet acc p.1 p.2) a

instance {ε α : Type} [DecidableEq ε] [DecidableEq α] : DecidableEq (Except ε α) := fun a b =>
  match a, b with
  | Except.error e, Except.error f =>
    if h : e = f then isTrue (by rw [h]) else isFalse (fun hh => by cases hh; exact h rfl)
  | Except.error _, Except.ok _ => isFalse (fun hh => by cases hh)
  | Except.ok _, Except.error _ => isFalse (fun hh => by cases hh)
  | Except.ok x, Except.ok y =>
    if h : x = y then isTrue (by rw [h]) else isFalse (fun hh => by cases hh; exact h rfl)

/-! ## JavaScript-style numbers and values -/

/-- A JavaScript number as produced by `parseInt`: either an integer or `NaN`. -/
inductive JsNum where
  | nan : JsNum
  | int (n : Int) : JsNum
  deriving DecidableEq, Repr

/-- The JavaScript values that flow through this repository: `undefined`,
numbers and strings. -/
inductive JVal where
  | undef : JVal
  | num (n : JsNum) : JVal
  | str (s : String) : JVal
  deriving DecidableEq, Repr

/-- `parseInt(s, 10)` of JavaScript: skip leading whitespace, read an optional
sign and then the longest prefix of decimal digits; `NaN` when no digit is
read, otherwise the signed value of those digits (trailing junk is ignored). -/
def parseIntJs (s : String) : JsNum :=
  let cs := s.toList.dropWhile (fun c => c == ' ' || c == '\t' || c == '\n' || c == '\r')
  let signed : Int × List Char :=
    match cs with
    | '-' :: rest => (-1, rest)
    | '+' :: rest => (1, rest)
    | _ => (1, cs)
  let ds := signed.2.takeWhile Char.isDigit
  if ds.isEmpty then JsNum.nan
  else JsNum.int (signed.1 * Int.ofNat (ds.foldl (fun a c => a * 10 + (c.toNat - 48)) 0))

/-- Rendering of a JavaScript number inside a template literal. -/
def jsNumToString : JsNum → String
  | JsNum.nan => "NaN"
  | JsNum.int n => toString n

/-- Whether the list `pat` is a prefix of the list `cs`. -/
def leadsList : List Char → List Char → Bool
  | [], _ => true
  | _ :: _, [] => false
  | p :: ps, c :: cs => p == c && leadsList ps cs

/-- Whether the pattern occurs as a contiguous sublist of the haystack. -/
def occursList (pat : List Char) : List Char → Bool
  | [] => leadsList pat []
  | c :: cs => leadsList pat (c :: cs) || occursList pat cs

/-- Whether the string `pat` occurs as a substring of `s`. -/
def subOccurs (pat s : String) : Bool :=
  occursList pat.toList s.toList

/-! ## Source embedding: `logger.service.ts` -/

/-- `LoggerService` of `logger.service.ts`: a private accumulated context,
modelled as a JavaScript object. -/
structure LoggerService where
  context : List (String × JVal)
  deriving Repr

/-- `LoggerService.assign`: `this.context = \x7b ...this.context, ...data \x7d`. -/
def LoggerService.assign (l : LoggerService) (data : List (String × JVal)) : LoggerService :=
  { context := objSpread l.context data }

/-- `LoggerService.log`: `console.log(message, this.context)` — the service is
returned unchanged together with the line it printed (message and context). -/
def LoggerService.log (l : LoggerService) (message : String) :
    LoggerService × String × List (String × JVal) :=
  (l, message, l.context)

/-! ## Source embedding: `user.decorator.ts` -/

/-- The injected `REQUEST` object as used by the pipe: a headers map from
header names to string values. -/
structure RequestObj where
  headers : List (String × String)
  deriving DecidableEq, Repr

/-- The user DTO produced by the pipe and consumed by the controller. -/
structure UserDto where
  id : JsNum
  name : String
  deriving DecidableEq, Repr

/-- `GetUserPipe` of `user.decorator.ts`: constructed with the injected
`REQUEST` object (`@Inject(REQUEST) private readonly req`). -/
structure GetUserPipe where
  req : RequestObj
  deriving DecidableEq, Repr

/-- `GetUserPipe.transform`: reads `this.req.headers["x-user-id"]`; when that
value is falsy (absent or the empty string) it returns the anonymous default,
otherwise `\x7b id: parseInt(userId, 10), name: "Test User" \x7d`. -/
def GetUserPipe.transform (p : GetUserPipe) (value : JVal) : UserDto :=
  match objGet p.req.headers "x-user-id" with
  | none => { id := JsNum.int 0, name := "Anonymous" }
  | some s =>
    if s = "" then { id := JsNum.int 0, name := "Anonymous" }
    else { id := parseIntJs s, name := "Test User" }

/-! ## Source embedding: `my.controller.ts` -/

/-- The JSON object returned by `MyController.getData`. -/
structure GetDataResult where
  message : String
  deriving DecidableEq, Repr

/-- `MyController.getData`: calls
`this.logger.assign(\x7b userId: user.id, userName: user.name \x7d)` and returns
`\x7b message: "Hello user " + user.id \x7d`. -/
def MyController.getData (logger : LoggerService) (user : UserDto) :
    LoggerService × GetDataResult :=
  (logger.assign [("userId", JVal.num user.id), ("userName", JVal.str user.name)],
   { message := "Hello user " ++ jsNumToString user.id })

/-! ## Dependency-injection model

The container, binder and dispatcher are framework code not present under the
repository sources; they are modelled from the specification's component design
(sections 4.1, 4.3, 4.4, 6 and 7). -/

/-- Modelled from the spec: a Token is an opaque identifier naming a
dependency, used as a mapping key (section 3). -/
abbrev Token : Type := String

/-- The implementation behind a resolved pipe instance: either the real
`GetUserPipe` constructed from the injected request, or a test stub whose
`transform` returns a fixed value (the override of scenario D). -/
inductive PipeImpl where
  | real (req : RequestObj) : PipeImpl
  | stub (result : UserDto) : PipeImpl
  deriving DecidableEq, Repr

/-- Running the `transform` of a resolved pipe implementation. -/
def runTransform (impl : PipeImpl) (value : JVal) : UserDto :=
  match impl with
  | PipeImpl.real req => GetUserPipe.transform ⟨req⟩ value
  | PipeImpl.stub result => result

/-- The values that live in the container: injected request objects and pipe
instances. -/
inductive DIVal where
  | request (r : RequestObj) : DIVal
  | pipe (impl : PipeImpl) : DIVal
  deriving DecidableEq, Repr

/-- Modelled from the spec: a constructed instance cached by the container;
the `id` field gives it an identity so that reference stability (section 8,
idempotence) is expressible. -/
structure Instance where
  id : Nat
  val : DIVal
  deriving DecidableEq, Repr

/-- Modelled from the spec: a Provider binds a Token to a factory with
declared dependencies (section 3); a plain value is a factory with no
dependencies.  `make` returns `none` when the factory itself cannot build a
value from the resolved dependencies. -/
structure Provider where
  deps : List Token
  make : List Instance → Option DIVal

/-- A provider for a plain value (no dependencies). -/
def valueProvider (v : DIVal) : Provider :=
  { deps := [], make := fun _ => some v }

/-- Modelled from the spec: the taxonomy of resolution failures (section 7).
`missingProvider` carries the unresolved token and the requesting
constructor/factory; `depthExceeded` reports that the dependency chain is
deeper than the resolution bound (a cyclic configuration). -/
inductive ResolveError where
  | missingProvider (token : Token) (requester : String) : ResolveError
  | factoryFailed (token : Token) : ResolveError
  | depthExceeded : ResolveError
  deriving DecidableEq, Repr

/-- The user-visible message of a resolution failure: it names the missing
token and the type that required it (section 7). -/
def ResolveError.message : ResolveError → String
  | ResolveError.missingProvider t r =>
      "MissingProviderError: no provider registered for token " ++ t
        ++ ", required by " ++ r
  | ResolveError.factoryFailed t =>
      "FactoryError: the provider for token " ++ t ++ " failed to build a value"
  | ResolveError.depthExceeded =>
      "ResolutionDepthError: dependency chain too deep"

/-- Modelled from the spec: the Container is a registry (token to provider),
a cache of constructed singletons, and a counter handing out instance
identities (sections 3, 4.1, 5). -/
structure Container where
  providers : List (Token × Provider)
  cache : List (Token × Instance)
  nextId : Nat

/-- Modelled from the spec: `register(token, provider)` adds or overwrites a
binding, last write wins, no error on duplicate (section 4.1). -/
def Container.register (c : Container) (t : Token) (p : Provider) : Container :=
  { c with providers := objSet c.providers t p }

/-- Modelled from the spec: container construction takes an ordered collection
of registrations plus a set of override registrations that replace existing
bindings by token (section 6); the cache starts empty. -/
def mkContainer (regs overrides : List (Token × Provider)) : Container :=
  (regs ++ overrides).foldl (fun c p => c.register p.1 p.2) ⟨[], [], 0⟩

/-- Sequential resolution of a list of tokens with an explicit resolver,
threading the container through; fails on the first failure. -/
def resolveManyWith (res : Container → Token → Except ResolveError (Instance × Container)) :
    Container → List Token → Except ResolveError (List Instance × Container)
  | c, [] => Except.ok ([], c)
  | c, t :: ts =>
    match res c t with
    | Except.error e => Except.error e
    | Except.ok (i, c1) =>
      match resolveManyWith res c1 ts with
      | Except.error e => Except.error e
      | Except.ok (is, c2) => Except.ok (i :: is, c2)

/-- Modelled from the spec: `resolve(token)` returns the cached instance if
present, otherwise looks up the token's provider, recursively resolves the
provider's declared dependencies (each recursive requester being the token
under construction), builds and caches the instance.  A token with no
registered provider fails immediately with `MissingProviderError` naming the
token and the requester (section 4.1).  The fuel bound limits recursion
depth, failing with `depthExceeded` on configurations deeper than the bound. -/
def resolveFuel : Nat → Container → Token → String → Except ResolveError (Instance × Container)
  | 0 => fun _ _ _ => Except.error ResolveError.depthExceeded
  | fuel + 1 => fun c t requester =>
    match objGet c.cache t with
    | some inst => Except.ok (inst, c)
    | none =>
      match objGet c.providers t with
      | none => Except.error (ResolveError.missingProvider t requester)
      | some p =>
        match resolveManyWith (fun c2 d => resolveFuel fuel c2 d t) c p.deps with
        | Except.error e => Except.error e
        | Except.ok (insts, c2) =>
          match p.make insts with
          | none => Except.error (ResolveError.factoryFailed t)
          | some v =>
            Except.ok (⟨c2.nextId, v⟩,
              ⟨c2.providers, objSet c2.cache t ⟨c2.nextId, v⟩, c2.nextId + 1⟩)

/-- The tokens required directly or transitively by a token, to the given
depth: the token itself, and when it has a provider, everything required by
the provider's declared dependencies at the next depth. -/
def requiredTokens : Nat → List (Token × Provider) → Token → List Token
  | 0 => fun _ t => [t]
  | fuel + 1 => fun provs t =>
    t :: (match objGet provs t with
      | none => []
      | some p => (p.deps.map (fun d => requiredTokens fuel provs d)).flatten)

/-- A container cache is closed when every cached token has a registered
provider whose declared dependencies are all cached as well.  A freshly
configured container (empty cache) is trivially closed, and resolution
preserves closedness. -/
def CacheClosed (c : Container) : Prop :=
  ∀ u i, objGet c.cache u = some i →
    ∃ p, objGet c.providers u = some p ∧ ∀ d ∈ p.deps, ∃ j, objGet c.cache d = some j

/-- Modelled from the spec: a `BindingError` wraps a resolution failure with
handler and parameter context (sections 4.3, 7); `notAPipe` reports a binding
whose resolved instance does not implement `transform`. -/
inductive BindError where
  | binding (handler param : String) (cause : ResolveError) : BindError
  | notAPipe (handler : String) (t : Token) : BindError
  deriving DecidableEq, Repr

/-- The handler a binding failure is tagged with. -/
def BindError.handlerTag : BindError → String
  | BindError.binding h _ _ => h
  | BindError.notAPipe h _ => h

/-- The user-visible message of a binding failure. -/
def BindError.message : BindError → String
  | BindError.binding h param cause =>
      "BindingError while binding parameter " ++ param ++ " of " ++ h ++ ": "
        ++ cause.message
  | BindError.notAPipe h t =>
      "BindingError: token " ++ t ++ " resolved for " ++ h
        ++ " is not a pipe"

/-- The outcome of binding one parameter: the result or failure, the container
after resolution, and whether the pipe's `transform` was executed. -/
structure BindOutcome where
  result : Except BindError UserDto
  container : Container
  transformRan : Bool

/-- Modelled from the spec: the Parameter Decorator Binder asks the Container
to resolve the Pipe at invocation time, propagating any resolution failure
immediately wrapped with handler/parameter context, and only on success calls
`transform` on the resolved pipe with the raw input (section 4.3).  It never
catches a resolution failure to substitute a value. -/
def bindParam (fuel : Nat) (c : Container) (pipeToken : Token)
    (handler param : String) (raw : JVal) : BindOutcome :=
  match resolveFuel fuel c pipeToken ("parameter " ++ param ++ " of " ++ handler) with
  | Except.error e => ⟨Except.error (BindError.binding handler param e), c, false⟩
  | Except.ok (inst, c1) =>
    match inst.val with
    | DIVal.pipe impl => ⟨Except.ok (runTransform impl raw), c1, true⟩
    | _ => ⟨Except.error (BindError.notAPipe handler pipeToken), c1, false⟩

/-- Binding of all parameters of a handler in order, threading the container;
fails on the first binder failure. -/
def bindAll (fuel : Nat) (handler : String) (raw : JVal) :
    Container → List (Token × String) → Except BindError (List UserDto × Container)
  | c, [] => Except.ok ([], c)
  | c, (pt, pname) :: ps =>
    match bindParam fuel c pt handler pname raw with
    | ⟨Except.error e, _, _⟩ => Except.error e
    | ⟨Except.ok u, c1, _⟩ =>
      match bindAll fuel handler raw c1 ps with
      | Except.error e => Except.error e
      | Except.ok (us, c2) => Except.ok (u :: us, c2)

/-- The observable outcome of one dispatched invocation: the handler result or
the propagated binding failure, the list of bound values the handler received
(if it ran), whether the handler was invoked, and the logger state after the
invocation. -/
structure DispatchResult where
  result : Except BindError GetDataResult
  bound : Option (List UserDto)
  handlerInvoked : Bool
  logger : LoggerService
  container : Container

/-- Modelled from the spec: the Handler Dispatcher invokes the target
operation only after all parameter Binders have produced bound values; if any
Binder fails the operation is never invoked and the failure propagates to the
caller (section 4.4). -/
def dispatch (fuel : Nat) (c : Container) (handler : String)
    (params : List (Token × String)) (raw : JVal)
    (op : List UserDto → LoggerService → LoggerService × GetDataResult)
    (lg : LoggerService) : DispatchResult :=
  match bindAll fuel handler raw c params with
  | Except.error e => ⟨Except.error e, none, false, lg, c⟩
  | Except.ok (us, c1) =>
    match op us lg with
    | (lg1, res) => ⟨Except.ok res, some us, true, lg1, c1⟩

/-- The `GetData` operation of `MyController` lifted to the dispatcher's
calling convention (one bound parameter: the user). -/
def getDataOp : List UserDto → LoggerService → LoggerService × GetDataResult
  | u :: _, lg => MyController.getData lg u
  | [], lg => (lg, { message := "no user bound" })

/-- Dispatch of `MyController.getData`: one parameter, bound through
`GetUserPipe`; the raw input of the decorator's pipe is `undefined`. -/
def dispatchGetData (fuel : Nat) (c : Container) (lg : LoggerService) : DispatchResult :=
  dispatch fuel c "MyController.getData" [("GetUserPipe", "user")] JVal.undef getDataOp lg

/-! ## Concrete scenario containers -/

/-- The request object of the fixed test: headers with `x-user-id` mapped
to `1`. -/
def req1 : RequestObj := ⟨[("x-user-id", "1")]⟩

/-- The provider of `GetUserPipe` as declared by the source: its factory
depends on the token `REQUEST` and constructs the pipe from the resolved
request object. -/
def getUserPipeProvider : Provider :=
  { deps := ["REQUEST"],
    make := fun insts =>
      match insts with
      | [⟨_, DIVal.request r⟩] => some (DIVal.pipe (PipeImpl.real r))
      | _ => none }

/-- Scenario A container (the broken test module): the pipe is registered but
no provider for `REQUEST` is. -/
def containerA : Container :=
  mkContainer [("GetUserPipe", getUserPipeProvider)] []

/-- Scenario B container (the fixed test module): `REQUEST` is provided with
headers carrying `x-user-id = 1`, and the pipe is registered. -/
def containerB : Container :=
  mkContainer [("REQUEST", valueProvider (DIVal.request req1)),
               ("GetUserPipe", getUserPipeProvider)] []

/-- Scenario D container: the real pipe binding is overridden by a stub whose
`transform` returns a fixed user; no `REQUEST` provider exists. -/
def containerD : Container :=
  mkContainer [("GetUserPipe", getUserPipeProvider)]
    [("GetUserPipe", valueProvider (DIVal.pipe (PipeImpl.stub ⟨JsNum.int 1, "Test User"⟩)))]

/-- A fresh logger with an empty accumulated context. -/
def lg0 : LoggerService := ⟨[]⟩

/-- The binding failure produced by scenario A (no `REQUEST` provider): a
`BindingError` wrapping the `MissingProviderError` for token `REQUEST`
requested by `GetUserPipe`. -/
def errorA : BindError :=
  BindError.binding "MyController.getData" "user"
    (ResolveError.missingProvider "REQUEST" "GetUserPipe")

/-- The scenario B container after its `REQUEST` token has been resolved
once: the constructed instance 0 is cached. -/
def containerB1 : Container :=
  ⟨containerB.providers, [("REQUEST", ⟨0, DIVal.request req1⟩)], 1⟩

/-! ## Lemmas about objects -/

theorem objGet_objSet {α : Type} (o : List (String × α)) (k k' : String) (v : α) :
    objGet (objSet o k v) k' = if k' = k then some v else objGet o k' := by
  induction o with
  | nil =>
    by_cases h : k' = k
    · simp [objSet, objGet, h]
    · simp [objSet, objGet, h, Ne.symm h]
  | cons p rest ih =>
    obtain ⟨k0, v0⟩ := p
    by_cases h0 : k0 = k
    · subst h0
      by_cases h1 : k' = k0
      · simp [objSet, objGet, h1]
      · simp [objSet, objGet, h1, Ne.symm h1]
    · by_cases h1 : k' = k0
      · subst h1
        simp [objSet, objGet, h0, Ne.symm h0]
      · simp [objSet, objGet, h0, h1, Ne.symm h1, ih]

theorem objGet_eq_none_of_not_mem {α : Type} (o : List (String × α)) (k : String)
    (h : k ∉ o.map Prod.fst) : objGet o k = none := by
  induction o with
  | nil => rfl
  | cons p rest ih =>
    obtain ⟨k0, v0⟩ := p
    simp only [List.map, List.mem_cons] at h
    push_neg at h
    simp only [objGet]
    rw [if_neg (Ne.symm h.1)]
    exact ih h.2

theorem objGet_objSpread {α : Type} (a b : List (String × α))
    (hnd : (b.map Prod.fst).Nodup) (k : String) :
    objGet (objSpread a b) k =
      match objGet b k with
      | some v => some v
      | none => objGet a k := by
  induction b generalizing a with
  | nil => simp [objSpread, objGet, List.foldl]
  | cons p bs ih =>
    obtain ⟨k0, v0⟩ := p
    simp only [List.map, List.nodup_cons] at hnd
    have hspread : objSpread a ((k0, v0) :: bs) = objSpread (objSet a k0 v0) bs := by
      simp [objSpread, List.foldl]
    rw [hspread, ih (objSet a k0 v0) hnd.2]
    by_cases h : k0 = k
    · subst h
      have hb : objGet bs k0 = none :=
        objGet_eq_none_of_not_mem bs k0 hnd.1
      simp [objGet, hb, objGet_objSet]
    · have hne : ¬ k = k0 := fun hh => h hh.symm
      cases hbs : objGet bs k with
      | some v => simp [objGet, h, hbs]
      | none => simp [objGet, h, hbs, objGet_objSet, hne]

/-! ## Lemmas about the container -/

/-- A token that has a constructed instance in the container's cache. -/
def Cached (c : Container) (u : Token) : Prop :=
  ∃ j, objGet c.cache u = some j

theorem mem_requiredTokens_succ {fuel : Nat} {provs : List (Token × Provider)}
    {t T : Token} :
    T ∈ requiredTokens (fuel + 1) provs t ↔
      T = t ∨ ∃ p, objGet provs t = some p ∧
        ∃ d ∈ p.deps, T ∈ requiredTokens fuel provs d := by
  cases hp : objGet provs t with
  | none => simp [requiredTokens, hp]
  | some p =>
    simp only [requiredTokens, hp, List.mem_cons, List.mem_flatten, List.mem_map]
    constructor
    · rintro (rfl | ⟨l, ⟨d, hd, rfl⟩, hT⟩)
      · exact Or.inl rfl
      · exact Or.inr ⟨p, rfl, d, hd, hT⟩
    · rintro (rfl | ⟨p', hp', d, hd, hT⟩)
      · exact Or.inl rfl
      · cases hp'
        exact Or.inr ⟨requiredTokens fuel provs d, ⟨d, hd, rfl⟩, hT⟩

section ResolverLemmas

variable (res : Container → Token → Except ResolveError (Instance × Container))

theorem resolveManyWith_nil_inv (c : Container) (is : List Instance) (c1 : Container)
    (h : resolveManyWith res c [] = Except.ok (is, c1)) : is = [] ∧ c1 = c := by
  simp only [resolveManyWith, Except.ok.injEq, Prod.mk.injEq] at h
  exact ⟨h.1.symm, h.2.symm⟩

theorem resolveManyWith_cons_inv (c : Container) (t : Token) (ts : List Token)
    (is : List Instance) (c1 : Container)
    (h : resolveManyWith res c (t :: ts) = Except.ok (is, c1)) :
    ∃ i c2 is2, res c t = Except.ok (i, c2) ∧
      resolveManyWith res c2 ts = Except.ok (is2, c1) ∧ is = i :: is2 := by
  simp only [resolveManyWith] at h
  split at h
  · simp at h
  · rename_i i c2 heq
    split at h
    · simp at h
    · rename_i is2 c3 heq2
      simp only [Except.ok.injEq, Prod.mk.injEq] at h
      exact ⟨i, c2, is2, heq, h.2 ▸ heq2, h.1.symm⟩

theorem resolveManyWith_providers
    (h : ∀ c t i c1, res c t = Except.ok (i, c1) → c1.providers = c.providers) :
    ∀ ts c is c1, resolveManyWith res c ts = Except.ok (is, c1) →
      c1.providers = c.providers := by
  intro ts
  induction ts with
  | nil =>
    intro c is c1 hm
    rw [(resolveManyWith_nil_inv res c is c1 hm).2]
  | cons t ts ih =>
    intro c is c1 hm
    obtain ⟨i, c2, is2, hr, hrec, _⟩ := resolveManyWith_cons_inv res c t ts is c1 hm
    rw [ih c2 is2 c1 hrec, h c t i c2 hr]

theorem resolveManyWith_mono
    (h : ∀ c t i c1 u, res c t = Except.ok (i, c1) → Cached c u → Cached c1 u) :
    ∀ ts c is c1 u, resolveManyWith res c ts = Except.ok (is, c1) →
      Cached c u → Cached c1 u := by
  intro ts
  induction ts with
  | nil =>
    intro c is c1 u hm hc
    rw [(resolveManyWith_nil_inv res c is c1 hm).2]
    exact hc
  | cons t ts ih =>
    intro c is c1 u hm hc
    obtain ⟨i, c2, is2, hr, hrec, _⟩ := resolveManyWith_cons_inv res c t ts is c1 hm
    exact ih c2 is2 c1 u hrec (h c t i c2 u hr hc)

theorem resolveManyWith_cached
    (hself : ∀ c t i c1, res c t = Except.ok (i, c1) → objGet c1.cache t = some i)
    (hmono : ∀ c t i c1 u, res c t = Except.ok (i, c1) → Cached c u → Cached c1 u) :
    ∀ ts c is c1, resolveManyWith res c ts = Except.ok (is, c1) →
      ∀ d ∈ ts, Cached c1 d := by
  intro ts
  induction ts with
  | nil => intro c is c1 hm d hd; simp at hd
  | cons t ts ih =>
    intro c is c1 hm d hd
    obtain ⟨i, c2, is2, hr, hrec, _⟩ := resolveManyWith_cons_inv res c t ts is c1 hm
    rcases List.mem_cons.mp hd with rfl | hd2
    · exact resolveManyWith_mono res hmono ts c2 is2 c1 d hrec ⟨i, hself c d i c2 hr⟩
    · exact ih c2 is2 c1 hrec d hd2

theorem resolveManyWith_closed
    (h : ∀ c t i c1, CacheClosed c → res c t = Except.ok (i, c1) → CacheClosed c1) :
    ∀ ts c is c1, CacheClosed c → resolveManyWith res c ts = Except.ok (is, c1) →
      CacheClosed c1 := by
  intro ts
  induction ts with
  | nil =>
    intro c is c1 hcc hm
    rw [(resolveManyWith_nil_inv res c is c1 hm).2]
    exact hcc
  | cons t ts ih =>
    intro c is c1 hcc hm
    obtain ⟨i, c2, is2, hr, hrec, _⟩ := resolveManyWith_cons_inv res c t ts is c1 hm
    exact ih c2 is2 c1 (h c t i c2 hcc hr) hrec

theorem resolveManyWith_required (f : Nat) (provs : List (Token × Provider))
    (hprov : ∀ c t i c1, res c t = Except.ok (i, c1) → c1.providers = c.providers)
    (hclosed : ∀ c t i c1, CacheClosed c → res c t = Except.ok (i, c1) → CacheClosed c1)
    (hok : ∀ c t i c1, c.providers = provs → CacheClosed c →
      res c t = Except.ok (i, c1) →
      ∀ T ∈ requiredTokens f provs t, ∃ q, objGet provs T = some q) :
    ∀ ts c is c1, c.providers = provs → CacheClosed c →
      resolveManyWith res c ts = Except.ok (is, c1) →
      ∀ d ∈ ts, ∀ T ∈ requiredTokens f provs d, ∃ q, objGet provs T = some q := by
  intro ts
  induction ts with
  | nil => intro c is c1 hpv hcc hm d hd; simp at hd
  | cons t ts ih =>
    intro c is c1 hpv hcc hm d hd T hT
    obtain ⟨i, c2, is2, hr, hrec, _⟩ := resolveManyWith_cons_inv res c t ts is c1 hm
    rcases List.mem_cons.mp hd with rfl | hd2
    · exact hok c d i c2 hpv hcc hr T hT
    · exact ih c2 is2 c1 ((hprov c t i c2 hr).trans hpv)
        (hclosed c t i c2 hcc hr) hrec d hd2 T hT

end ResolverLemmas

theorem resolveFuel_succ_ok_inv (fuel : Nat) (c : Container) (t : Token) (r : String)
    (i : Instance) (c1 : Container)
    (h : resolveFuel (fuel + 1) c t r = Except.ok (i, c1)) :
    (objGet c.cache t = some i ∧ c1 = c) ∨
    (objGet c.cache t = none ∧ ∃ p insts c2 v,
      objGet c.providers t = some p ∧
      resolveManyWith (fun c3 d => resolveFuel fuel c3 d t) c p.deps
        = Except.ok (insts, c2) ∧
      p.make insts = some v ∧
      i = Instance.mk c2.nextId v ∧
      c1 = Container.mk c2.providers
        (objSet c2.cache t (Instance.mk c2.nextId v)) (c2.nextId + 1)) := by
  simp only [resolveFuel] at h
  split at h
  · rename_i inst heq
    simp only [Except.ok.injEq, Prod.mk.injEq] at h
    exact Or.inl ⟨h.1 ▸ heq, h.2.symm⟩
  · rename_i heq
    split at h
    · simp at h
    · rename_i p hp
      split at h
      · simp at h
      · rename_i insts c2 hm
        split at h
        · simp at h
        · rename_i v hv
          simp only [Except.ok.injEq, Prod.mk.injEq] at h
          exact Or.inr ⟨heq, p, insts, c2, v, hp, hm, hv, h.1.symm, h.2.symm⟩

theorem resolve_providers : ∀ (fuel : Nat) (c : Container) (t : Token) (r : String)
    (i : Instance) (c1 : Container),
    resolveFuel fuel c t r = Except.ok (i, c1) → c1.providers = c.providers := by
  intro fuel
  induction fuel with
  | zero => intro c t r i c1 h; simp [resolveFuel] at h
  | succ fuel ih =>
    intro c t r i c1 h
    rcases resolveFuel_succ_ok_inv fuel c t r i c1 h with
      ⟨_, rfl⟩ | ⟨_, p, insts, c2, v, hp, hm, hv, hi, rfl⟩
    · rfl
    · exact resolveManyWith_providers _
        (fun c' t' i' c1' hh => ih c' t' t i' c1' hh) p.deps c insts c2 hm

theorem resolve_caches_self (fuel : Nat) (c : Container) (t : Token) (r : String)
    (i : Instance) (c1 : Container)
    (h : resolveFuel fuel c t r = Except.ok (i, c1)) :
    objGet c1.cache t = some i := by
  cases fuel with
  | zero => simp [resolveFuel] at h
  | succ fuel =>
    rcases resolveFuel_succ_ok_inv fuel c t r i c1 h with
      ⟨hc, rfl⟩ | ⟨_, p, insts, c2, v, hp, hm, hv, rfl, rfl⟩
    · exact hc
    · show objGet (objSet c2.cache t ⟨c2.nextId, v⟩) t = some ⟨c2.nextId, v⟩
      rw [objGet_objSet, if_pos rfl]

theorem resolve_cached_mono : ∀ (fuel : Nat) (c : Container) (t : Token) (r : String)
    (i : Instance) (c1 : Container) (u : Token),
    resolveFuel fuel c t r = Except.ok (i, c1) → Cached c u → Cached c1 u := by
  intro fuel
  induction fuel with
  | zero => intro c t r i c1 u h; simp [resolveFuel] at h
  | succ fuel ih =>
    intro c t r i c1 u h hc
    rcases resolveFuel_succ_ok_inv fuel c t r i c1 h with
      ⟨_, rfl⟩ | ⟨_, p, insts, c2, v, hp, hm, hv, hi, rfl⟩
    · exact hc
    · obtain ⟨j, hj⟩ := resolveManyWith_mono _
        (fun c' t' i' c1' u' hh => ih c' t' t i' c1' u' hh) p.deps c insts c2 u hm hc
      by_cases hut : u = t
      · exact ⟨⟨c2.nextId, v⟩, by
          show objGet (objSet c2.cache t ⟨c2.nextId, v⟩) u = some ⟨c2.nextId, v⟩
          rw [objGet_objSet, if_pos hut]⟩
      · exact ⟨j, by
          show objGet (objSet c2.cache t ⟨c2.nextId, v⟩) u = some j
          rw [objGet_objSet, if_neg hut]; exact hj⟩

theorem resolve_closed : ∀ (fuel : Nat) (c : Container) (t : Token) (r : String)
    (i : Instance) (c1 : Container),
    CacheClosed c → resolveFuel fuel c t r = Except.ok (i, c1) → CacheClosed c1 := by
  intro fuel
  induction fuel with
  | zero => intro c t r i c1 hcc h; simp [resolveFuel] at h
  | succ fuel ih =>
    intro c t r i c1 hcc h
    rcases resolveFuel_succ_ok_inv fuel c t r i c1 h with
      ⟨_, rfl⟩ | ⟨_, p, insts, c2, v, hp, hm, hv, hi, rfl⟩
    · exact hcc
    · have hprov2 : c2.providers = c.providers :=
        resolveManyWith_providers _
          (fun c' t' i' c1' hh => resolve_providers fuel c' t' t i' c1' hh)
          p.deps c insts c2 hm
      have hcc2 : CacheClosed c2 :=
        resolveManyWith_closed _
          (fun c' t' i' c1' hcc' hh => ih c' t' t i' c1' hcc' hh)
          p.deps c insts c2 hcc hm
      have hdeps : ∀ d ∈ p.deps, Cached c2 d :=
        resolveManyWith_cached _
          (fun c' t' i' c1' hh => resolve_caches_self fuel c' t' t i' c1' hh)
          (fun c' t' i' c1' u' hh => resolve_cached_mono fuel c' t' t i' c1' u' hh)
          p.deps c insts c2 hm
      intro u j hu
      have hu' : objGet (objSet c2.cache t ⟨c2.nextId, v⟩) u = some j := hu
      rw [objGet_objSet] at hu'
      by_cases hut : u = t
      · refine ⟨p, ?_, ?_⟩
        · show objGet c2.providers u = some p
          rw [hprov2, hut]; exact hp
        · intro d hd
          obtain ⟨jd, hjd⟩ := hdeps d hd
          by_cases hdt : d = t
          · exact ⟨⟨c2.nextId, v⟩, by
              show objGet (objSet c2.cache t ⟨c2.nextId, v⟩) d = some ⟨c2.nextId, v⟩
              rw [objGet_objSet, if_pos hdt]⟩
          · exact ⟨jd, by
              show objGet (objSet c2.cache t ⟨c2.nextId, v⟩) d = some jd
              rw [objGet_objSet, if_neg hdt]; exact hjd⟩
      · rw [if_neg hut] at hu'
        obtain ⟨q, hq, hqdeps⟩ := hcc2 u j hu'
        refine ⟨q, hq, ?_⟩
        intro d hd
        obtain ⟨jd, hjd⟩ := hqdeps d hd
        by_cases hdt : d = t
        · exact ⟨⟨c2.nextId, v⟩, by
            show objGet (objSet c2.cache t ⟨c2.nextId, v⟩) d = some ⟨c2.nextId, v⟩
            rw [objGet_objSet, if_pos hdt]⟩
        · exact ⟨jd, by
            show objGet (objSet c2.cache t ⟨c2.nextId, v⟩) d = some jd
            rw [objGet_objSet, if_neg hdt]; exact hjd⟩

theorem cached_required_provided : ∀ (fuel : Nat) (c : Container) (u T : Token),
    CacheClosed c → Cached c u → T ∈ requiredTokens fuel c.providers u →
    ∃ q, objGet c.providers T = some q := by
  intro fuel
  induction fuel with
  | zero =>
    intro c u T hcc hcu hT
    simp only [requiredTokens, List.mem_singleton] at hT
    subst hT
    obtain ⟨j, hj⟩ := hcu
    obtain ⟨p, hp, _⟩ := hcc T j hj
    exact ⟨p, hp⟩
  | succ fuel ih =>
    intro c u T hcc hcu hT
    rcases mem_requiredTokens_succ.mp hT with rfl | ⟨p, hp, d, hd, hTd⟩
    · obtain ⟨j, hj⟩ := hcu
      obtain ⟨q, hq, _⟩ := hcc T j hj
      exact ⟨q, hq⟩
    · obtain ⟨j, hj⟩ := hcu
      obtain ⟨q, hq, hqdeps⟩ := hcc u j hj
      rw [hp] at hq
      cases hq
      exact ih c d T hcc (hqdeps d hd) hTd

theorem resolve_required : ∀ (fuel : Nat) (c : Container) (t : Token) (r : String)
    (i : Instance) (c1 : Container),
    CacheClosed c → resolveFuel fuel c t r = Except.ok (i, c1) →
    ∀ T ∈ requiredTokens fuel c.providers t, ∃ q, objGet c.providers T = some q := by
  intro fuel
  induction fuel with
  | zero => intro c t r i c1 hcc h; simp [resolveFuel] at h
  | succ fuel ih =>
    intro c t r i c1 hcc h T hT
    rcases resolveFuel_succ_ok_inv fuel c t r i c1 h with
      ⟨hct, _⟩ | ⟨_, p, insts, c2, v, hp, hm, hv, hi, rfl⟩
    · exact cached_required_provided (fuel + 1) c t T hcc ⟨i, hct⟩ hT
    · rcases mem_requiredTokens_succ.mp hT with rfl | ⟨p', hp', d, hd, hTd⟩
      · exact ⟨p, hp⟩
      · rw [hp] at hp'
        cases hp'
        exact resolveManyWith_required _ fuel c.providers
          (fun c' t' i' c1' hh => resolve_providers fuel c' t' t i' c1' hh)
          (fun c' t' i' c1' hcc' hh => resolve_closed fuel c' t' t i' c1' hcc' hh)
          (fun c' t' i' c1' hpv hcc' hh T' hT' => by
            rw [← hpv]
            exact ih c' t' t i' c1' hcc' hh T' (by rw [hpv]; exact hT'))
          p.deps c insts c2 rfl hcc hm d hd T hTd

/-- If some token required directly or transitively by `t` has no registered
provider, resolution of `t` cannot succeed. -/
theorem resolve_fails_of_missing (fuel : Nat) (c : Container) (t : Token) (r : String)
    (T : Token) (hcc : CacheClosed c) (hT : T ∈ requiredTokens fuel c.providers t)
    (hmiss : objGet c.providers T = none) :
    ∃ e, resolveFuel fuel c t r = Except.error e := by
  cases h : resolveFuel fuel c t r with
  | error e => exact ⟨e, rfl⟩
  | ok pr =>
    obtain ⟨i, c1⟩ := pr
    obtain ⟨q, hq⟩ := resolve_required fuel c t r i c1 hcc h T hT
    rw [hmiss] at hq
    cases hq

theorem bindParam_error_tagged (fuel : Nat) (c : Container) (pt : Token)
    (handler param : String) (raw : JVal) (e : BindError)
    (h : (bindParam fuel c pt handler param raw).result = Except.error e) :
    e.handlerTag = handler := by
  simp only [bindParam] at h
  split at h
  · simp only [Except.error.injEq] at h
    rw [← h]
    rfl
  · split at h
    · simp at h
    · simp only [Except.error.injEq] at h
      rw [← h]
      rfl

theorem bindAll_error_tagged (fuel : Nat) (handler : String) (raw : JVal) :
    ∀ (ps : List (Token × String)) (c : Container) (e : BindError),
      bindAll fuel handler raw c ps = Except.error e → e.handlerTag = handler := by
  intro ps
  induction ps with
  | nil => intro c e h; simp [bindAll] at h
  | cons p ps ih =>
    intro c e h
    obtain ⟨pt, pname⟩ := p
    simp only [bindAll] at h
    split at h
    · rename_i e' co bo heq
      simp only [Except.error.injEq] at h
      subst h
      exact bindParam_error_tagged fuel c pt handler pname raw e' (by rw [heq])
    · rename_i u c1 bo heq
      split at h
      · rename_i e' heq2
        simp only [Except.error.injEq] at h
        subst h
        exact ih c1 e' heq2
      · simp at h


/-! ## Claim theorems -/

/-- C1: for every token T required directly or transitively by a Pipe being
resolved, if no provider for T is registered in the active container, the
Binder wrapping resolve raises a BindingError (wrapping the resolution
failure) before the Pipe's transform ever executes; resolution never silently
substitutes a value for the missing dependency. -/
theorem pipe_missing_provider_fails_before_transform (fuel : Nat) (c : Container)
    (pt : Token) (handler param : String) (raw : JVal) (T : Token)
    (hcc : CacheClosed c) (hT : T ∈ requiredTokens fuel c.providers pt)
    (hmiss : objGet c.providers T = none) :
    (bindParam fuel c pt handler param raw).transformRan = false ∧
    ∃ e, (bindParam fuel c pt handler param raw).result
        = Except.error (BindError.binding handler param e) := by
  obtain ⟨e, he⟩ := resolve_fails_of_missing fuel c pt
    ("parameter " ++ param ++ " of " ++ handler) T hcc hT hmiss
  exact ⟨by simp [bindParam, he], e, by simp [bindParam, he]⟩

/-- Witness for C1 at scenario A: `REQUEST` is transitively required by the
`GetUserPipe` binding of the broken test module and has no provider there. -/
theorem pipe_missing_provider_fails_before_transform_wit :
    CacheClosed containerA ∧
    ("REQUEST" : Token) ∈ requiredTokens 2 containerA.providers "GetUserPipe" ∧
    objGet containerA.providers ("REQUEST" : Token) = none ∧
    ((bindParam 2 containerA "GetUserPipe" "MyController.getData" "user"
        JVal.undef).transformRan = false ∧
     ∃ e, (bindParam 2 containerA "GetUserPipe" "MyController.getData" "user"
        JVal.undef).result
          = Except.error (BindError.binding "MyController.getData" "user" e)) := by
  have hcc : CacheClosed containerA := by
    intro u i h
    have h2 : objGet ([] : List (Token × Instance)) u = some i := h
    simp [objGet] at h2
  exact ⟨hcc, by decide, rfl,
    pipe_missing_provider_fails_before_transform 2 containerA "GetUserPipe"
      "MyController.getData" "user" JVal.undef "REQUEST" hcc (by decide) rfl⟩

/-- C2: when the container has no provider for `REQUEST` and `GetUserPipe`
requires it, invoking the bound handler yields an error whose message names
the token `REQUEST` and the pipe `GetUserPipe`, and is not a generic
undefined-property fault. -/
theorem scenario_a_error_names_request_and_pipe :
    (dispatchGetData 3 containerA lg0).result = Except.error errorA ∧
    subOccurs "REQUEST" errorA.message = true ∧
    subOccurs "GetUserPipe" errorA.message = true ∧
    subOccurs "Cannot read properties of undefined" errorA.message = false := by
  refine ⟨?_, ?_, ?_, ?_⟩ <;> decide

/-- C3: with `REQUEST = headers with x-user-id mapped to 1` provided,
`GetUserPipe.transform` returns the user with id 1 and name Test User, the
handler receives exactly that object, and the side-effect collector
(`logger.assign`) records userId 1 and userName Test User. -/
theorem scenario_b_full_flow :
    GetUserPipe.transform ⟨req1⟩ JVal.undef = { id := JsNum.int 1, name := "Test User" } ∧
    (dispatchGetData 3 containerB lg0).bound = some [⟨JsNum.int 1, "Test User"⟩] ∧
    (dispatchGetData 3 containerB lg0).handlerInvoked = true ∧
    (dispatchGetData 3 containerB lg0).result = Except.ok ⟨"Hello user 1"⟩ ∧
    objGet (dispatchGetData 3 containerB lg0).logger.context "userId"
      = some (JVal.num (JsNum.int 1)) ∧
    objGet (dispatchGetData 3 containerB lg0).logger.context "userName"
      = some (JVal.str "Test User") := by
  refine ⟨?_, ?_, ?_, ?_, ?_, ?_⟩ <;> decide

/-- C4: for every injected request whose headers contain no `x-user-id`
entry, `transform` does not fail and returns the anonymous default. -/
theorem transform_missing_header_returns_anonymous (req : RequestObj) (v : JVal)
    (h : objGet req.headers "x-user-id" = none) :
    GetUserPipe.transform ⟨req⟩ v = { id := JsNum.int 0, name := "Anonymous" } := by
  simp [GetUserPipe.transform, h]

/-- Witness for C4 at a request with empty headers. -/
theorem transform_missing_header_returns_anonymous_wit :
    objGet (RequestObj.mk []).headers "x-user-id" = none ∧
    GetUserPipe.transform ⟨⟨[]⟩⟩ JVal.undef
      = { id := JsNum.int 0, name := "Anonymous" } :=
  ⟨rfl, transform_missing_header_returns_anonymous ⟨[]⟩ JVal.undef rfl⟩

/-- C5: overriding the binding for a token makes every subsequent resolution
return the overridden value; in the stub-override configuration of scenario D
no `REQUEST` provider exists and the dispatched invocation succeeds without
error. -/
theorem override_replaces_binding_and_stub_suffices :
    (∀ (c : Container) (t : Token) (v : DIVal) (r : String) (fuel : Nat),
      objGet c.cache t = none →
      (resolveFuel (fuel + 1) (c.register t (valueProvider v)) t r).map
          (fun pr => pr.1.val) = Except.ok v) ∧
    ((dispatchGetData 3 containerD lg0).result = Except.ok ⟨"Hello user 1"⟩ ∧
     (dispatchGetData 3 containerD lg0).handlerInvoked = true ∧
     (dispatchGetData 3 containerD lg0).bound = some [⟨JsNum.int 1, "Test User"⟩] ∧
     objGet containerD.providers "REQUEST" = none ∧
     ∀ e, (dispatchGetData 3 containerD lg0).result ≠ Except.error e) := by
  constructor
  · intro c t v r fuel hc
    have hreg : objGet (c.register t (valueProvider v)).providers t
        = some (valueProvider v) := by
      show objGet (objSet c.providers t (valueProvider v)) t = some (valueProvider v)
      rw [objGet_objSet, if_pos rfl]
    have hcache : objGet (c.register t (valueProvider v)).cache t = none := hc
    simp only [valueProvider] at hreg hcache
    simp [resolveFuel, hcache, hreg, resolveManyWith, valueProvider, Except.map]
  · have hok : (dispatchGetData 3 containerD lg0).result = Except.ok ⟨"Hello user 1"⟩ := by
      decide
    refine ⟨hok, by decide, by decide, rfl, ?_⟩
    intro e he
    rw [hok] at he
    exact Except.noConfusion he

/-- Witness for C5's override conjunct: overriding `GetUserPipe` in the
scenario A container with a stub value resolves to the stub. -/
theorem override_replaces_binding_and_stub_suffices_wit :
    objGet containerA.cache ("GetUserPipe" : Token) = none ∧
    (resolveFuel 1 (containerA.register "GetUserPipe"
        (valueProvider (DIVal.pipe (PipeImpl.stub ⟨JsNum.int 9, "Stub"⟩))))
        "GetUserPipe" "w").map (fun pr => pr.1.val)
      = Except.ok (DIVal.pipe (PipeImpl.stub ⟨JsNum.int 9, "Stub"⟩)) :=
  ⟨rfl, override_replaces_binding_and_stub_suffices.1 containerA "GetUserPipe"
    (DIVal.pipe (PipeImpl.stub ⟨JsNum.int 9, "Stub"⟩)) "w" 0 rfl⟩

/-- C6: resolving the same token twice within one container lifetime is
reference-stable: a second resolve from the container returned by the first
yields exactly the same instance (and leaves the container unchanged). -/
theorem resolve_twice_returns_cached_instance (fuel fuel' : Nat) (c : Container)
    (t : Token) (r r' : String) (i : Instance) (c1 : Container)
    (h : resolveFuel fuel c t r = Except.ok (i, c1)) :
    resolveFuel (fuel' + 1) c1 t r' = Except.ok (i, c1) := by
  have hc := resolve_caches_self fuel c t r i c1 h
  simp [resolveFuel, hc]

/-- Witness for C6: resolving `REQUEST` twice in the fixed test module's
container returns the same instance both times. -/
theorem resolve_twice_returns_cached_instance_wit :
    resolveFuel 1 containerB "REQUEST" "first"
      = Except.ok (⟨0, DIVal.request req1⟩, containerB1) ∧
    resolveFuel 1 containerB1 "REQUEST" "second"
      = Except.ok (⟨0, DIVal.request req1⟩, containerB1) := by
  have h : resolveFuel 1 containerB "REQUEST" "first"
      = Except.ok (⟨0, DIVal.request req1⟩, containerB1) := rfl
  exact ⟨h, resolve_twice_returns_cached_instance 1 0 containerB "REQUEST"
    "first" "second" ⟨0, DIVal.request req1⟩ containerB1 h⟩

/-- C7: the dispatcher invokes the target operation only after every parameter
binder has produced a bound value; when the binding of the parameters fails,
the operation is never invoked, the logger is untouched (its `assign` is never
called), and the failure propagates to the caller tagged with the handler
context. -/
theorem dispatch_requires_all_bindings (fuel : Nat) (c : Container) (handler : String)
    (params : List (Token × String)) (raw : JVal)
    (op : List UserDto → LoggerService → LoggerService × GetDataResult)
    (lg : LoggerService) (e : BindError)
    (hfail : bindAll fuel handler raw c params = Except.error e) :
    (dispatch fuel c handler params raw op lg).handlerInvoked = false ∧
    (dispatch fuel c handler params raw op lg).bound = none ∧
    (dispatch fuel c handler params raw op lg).logger = lg ∧
    (dispatch fuel c handler params raw op lg).result = Except.error e ∧
    e.handlerTag = handler := by
  refine ⟨?_, ?_, ?_, ?_, bindAll_error_tagged fuel handler raw params c e hfail⟩ <;>
    simp [dispatch, hfail]

/-- Witness for C7 at scenario A: the binder failure keeps `getData` (and its
`logger.assign` call) from running. -/
theorem dispatch_requires_all_bindings_wit :
    bindAll 3 "MyController.getData" JVal.undef containerA [("GetUserPipe", "user")]
        = Except.error errorA ∧
    ((dispatchGetData 3 containerA lg0).handlerInvoked = false ∧
     (dispatchGetData 3 containerA lg0).bound = none ∧
     (dispatchGetData 3 containerA lg0).logger = lg0 ∧
     (dispatchGetData 3 containerA lg0).result = Except.error errorA ∧
     errorA.handlerTag = "MyController.getData") :=
  ⟨rfl, dispatch_requires_all_bindings 3 containerA "MyController.getData"
    [("GetUserPipe", "user")] JVal.undef getDataOp lg0 errorA rfl⟩

/-- C8: `transform` never re-resolves dependencies: its result is a function
of the `x-user-id` header of the request injected at construction alone, so
any two invocations agreeing on that header (in particular two invocations on
the same pipe instance) yield equal results regardless of any other state. -/
theorem transform_depends_only_on_injected_request (p1 p2 : GetUserPipe)
    (v1 v2 : JVal)
    (h : objGet p1.req.headers "x-user-id" = objGet p2.req.headers "x-user-id") :
    GetUserPipe.transform p1 v1 = GetUserPipe.transform p2 v2 := by
  simp only [GetUserPipe.transform, h]

/-- Witness for C8: two pipes with different raw values and different extra
headers but the same `x-user-id` produce the same user. -/
theorem transform_depends_only_on_injected_request_wit :
    objGet (RequestObj.mk [("x-user-id", "1")]).headers "x-user-id"
      = objGet (RequestObj.mk [("x-user-id", "1"), ("other", "z")]).headers "x-user-id" ∧
    GetUserPipe.transform ⟨⟨[("x-user-id", "1")]⟩⟩ JVal.undef
      = GetUserPipe.transform ⟨⟨[("x-user-id", "1"), ("other", "z")]⟩⟩ (JVal.str "raw") :=
  ⟨rfl, transform_depends_only_on_injected_request ⟨⟨[("x-user-id", "1")]⟩⟩
    ⟨⟨[("x-user-id", "1"), ("other", "z")]⟩⟩ JVal.undef (JVal.str "raw") rfl⟩

/-- C9: a request whose `x-user-id` header holds the empty string yields the
anonymous default, the same result as when the key is entirely absent. -/
theorem transform_empty_userid_like_missing (req : RequestObj) (v : JVal)
    (h : objGet req.headers "x-user-id" = some "") :
    GetUserPipe.transform ⟨req⟩ v = { id := JsNum.int 0, name := "Anonymous" } ∧
    GetUserPipe.transform ⟨req⟩ v = GetUserPipe.transform ⟨⟨[]⟩⟩ v := by
  constructor <;> simp [GetUserPipe.transform, h, objGet]

/-- Witness for C9 at a request carrying an empty `x-user-id`. -/
theorem transform_empty_userid_like_missing_wit :
    objGet (RequestObj.mk [("x-user-id", "")]).headers "x-user-id" = some "" ∧
    (GetUserPipe.transform ⟨⟨[("x-user-id", "")]⟩⟩ JVal.undef
        = { id := JsNum.int 0, name := "Anonymous" } ∧
     GetUserPipe.transform ⟨⟨[("x-user-id", "")]⟩⟩ JVal.undef
        = GetUserPipe.transform ⟨⟨[]⟩⟩ JVal.undef) :=
  ⟨rfl, transform_empty_userid_like_missing ⟨[("x-user-id", "")]⟩ JVal.undef rfl⟩

/-- C10: `LoggerService.assign` merges its argument into the accumulated
context with last write wins (keys present in the argument take the argument's
value, keys absent from it keep their prior value), and `LoggerService.log`
leaves the context unchanged. -/
theorem logger_assign_merges_log_preserves (l : LoggerService)
    (data : List (String × JVal)) (m : String)
    (hnd : (data.map Prod.fst).Nodup) :
    (∀ k v, objGet data k = some v → objGet (l.assign data).context k = some v) ∧
    (∀ k, objGet data k = none → objGet (l.assign data).context k = objGet l.context k) ∧
    (l.log m).1.context = l.context := by
  refine ⟨?_, ?_, rfl⟩
  · intro k v hk
    show objGet (objSpread l.context data) k = some v
    rw [objGet_objSpread l.context data hnd k, hk]
  · intro k hk
    show objGet (objSpread l.context data) k = objGet l.context k
    rw [objGet_objSpread l.context data hnd k, hk]

/-- Witness for C10 on a concrete logger context and assign payload. -/
theorem logger_assign_merges_log_preserves_wit :
    (([("userId", JVal.num (JsNum.int 1)), ("userName", JVal.str "Test User")]
        : List (String × JVal)).map Prod.fst).Nodup ∧
    objGet (LoggerService.assign ⟨[("userId", JVal.num (JsNum.int 5)), ("keep", JVal.str "old")]⟩
        [("userId", JVal.num (JsNum.int 1)), ("userName", JVal.str "Test User")]).context
        "userId" = some (JVal.num (JsNum.int 1)) ∧
    objGet (LoggerService.assign ⟨[("userId", JVal.num (JsNum.int 5)), ("keep", JVal.str "old")]⟩
        [("userId", JVal.num (JsNum.int 1)), ("userName", JVal.str "Test User")]).context
        "keep" = objGet (LoggerService.mk
          [("userId", JVal.num (JsNum.int 5)), ("keep", JVal.str "old")]).context "keep" := by
  have hnd : (([("userId", JVal.num (JsNum.int 1)), ("userName", JVal.str "Test User")]
      : List (String × JVal)).map Prod.fst).Nodup := by decide
  refine ⟨hnd, ?_, ?_⟩
  · exact (logger_assign_merges_log_preserves
      ⟨[("userId", JVal.num (JsNum.int 5)), ("keep", JVal.str "old")]⟩
      [("userId", JVal.num (JsNum.int 1)), ("userName", JVal.str "Test User")] "m" hnd).1
      "userId" (JVal.num (JsNum.int 1)) rfl
  · exact (logger_assign_merges_log_preserves
      ⟨[("userId", JVal.num (JsNum.int 5)), ("keep", JVal.str "old")]⟩
      [("userId", JVal.num (JsNum.int 1)), ("userName", JVal.str "Test User")] "m" hnd).2.1
      "keep" rfl
